import Mathlib

/-!
# libpprng: WonderCardSeedSearcher

A shallow embedding of `src/libpprng/WonderCardSeedSearcher.cpp`: the frame
predicate `FrameChecker` and the estimator
`WonderCardSeedSearcher::Criteria::ExpectedNumberOfResults`, followed by the
properties proved about them.

Every local of the estimator that the source declares `uint64_t` or `uint32_t`
is reduced modulo `2^64` or `2^32` at the place where the source stores or
multiplies it.
-/

namespace pprng

/-! ## Data model -/

/-- Modelled from the spec: `Nature::Type` is declared outside the sources. It is
"a categorical attribute of a frame, one of a fixed small set plus
wildcard/unknown": the two distinguished values `ANY` and `UNKNOWN`, and the
named natures, told apart by their index. -/
inductive Nature where
  | specific (index : Nat)
  | ANY
  | UNKNOWN
  deriving DecidableEq

/-- Modelled from the spec: `Element::Type` is declared outside the sources. It is
the derived-type category, with the wildcard `ANY` and the value `UNKNOWN`
standing for "filter not requested". -/
inductive Element where
  | specific (index : Nat)
  | ANY
  | UNKNOWN
  deriving DecidableEq

/-- Modelled from the spec: the class `IVs` is declared outside the sources. It is
"six bounded integers (each 0-31 conceptually, packed for comparison)"; the
fields are the values of the accessors `hp()`, `at()`, `df()`, `sa()`, `sd()`
and `sp()` (`atk` stands for `at`, which is a reserved word here). -/
structure IVs where
  hp : Nat
  atk : Nat
  df : Nat
  sa : Nat
  sd : Nat
  sp : Nat
  deriving DecidableEq

namespace IVs

/-- Modelled from the spec: the constructor `IVs(word)` from a packed word. The
mask `0x7FFF7FFF` of the source shows two 15-bit halves, hence three 5-bit
components in each 16-bit half; which accessor reads which slot does not
matter for the one word the estimator builds, whose slots are all `31`. -/
def ofWord (word : Nat) : IVs :=
  { hp := word % 32
    atk := word / 2 ^ 5 % 32
    df := word / 2 ^ 10 % 32
    sp := word / 2 ^ 16 % 32
    sa := word / 2 ^ 21 % 32
    sd := word / 2 ^ 26 % 32 }

/-- Modelled from the spec: `IVs::betterThanOrEqual`, the componentwise
"better-than-or-equal" comparison (`this` is at least `o` in every component). -/
def betterThanOrEqual (self o : IVs) : Bool :=
  decide (o.hp ≤ self.hp) && decide (o.atk ≤ self.atk) && decide (o.df ≤ self.df) &&
    decide (o.sa ≤ self.sa) && decide (o.sd ≤ self.sd) && decide (o.sp ≤ self.sp)

/-- Modelled from the spec: `IVs::worseThanOrEqual`, the componentwise
"worse-than-or-equal" comparison (`this` is at most `o` in every component). -/
def worseThanOrEqual (self o : IVs) : Bool :=
  decide (self.hp ≤ o.hp) && decide (self.atk ≤ o.atk) && decide (self.df ≤ o.df) &&
    decide (self.sa ≤ o.sa) && decide (self.sd ≤ o.sd) && decide (self.sp ≤ o.sp)

/-- Every component lies in `0..31`. -/
def InRange (v : IVs) : Prop :=
  v.hp ≤ 31 ∧ v.atk ≤ 31 ∧ v.df ≤ 31 ∧ v.sa ≤ 31 ∧ v.sd ≤ 31 ∧ v.sp ≤ 31

instance (v : IVs) : Decidable v.InRange := by
  unfold InRange; infer_instance

/-- Componentwise order on statistic vectors: `a` is at most `b` in every
component. -/
def Le (a b : IVs) : Prop :=
  a.hp ≤ b.hp ∧ a.atk ≤ b.atk ∧ a.df ≤ b.df ∧ a.sa ≤ b.sa ∧ a.sd ≤ b.sd ∧ a.sp ≤ b.sp

instance (a b : IVs) : Decidable (a.Le b) := by
  unfold Le; infer_instance

end IVs

/-- The two derived read-only values of a statistic vector, `IVs::HiddenType()`
and `IVs::HiddenPower()`. Their bodies are outside the sources, so they are
taken as parameters: whatever is proved below holds for every such pair. -/
structure DerivedStats where
  HiddenType : IVs → Element
  HiddenPower : IVs → Nat

/-- The part of `WonderCardFrame` that the predicate reads. -/
structure WonderCardFrame where
  nature : Nature
  ivs : IVs

/-- Modelled from the spec: `WonderCardSeedSearcher::Criteria`, with the fields the
source reads. The declarations are outside the sources; following the spec
the register and frame bounds are "closed integer ranges" of non-negative
integers, the times lie on a time line of "second resolution" (a number of
seconds), and `buttonPresses` is the collection of control-input
combinations. -/
structure Criteria where
  version : Nat
  macAddressLow : Nat
  macAddressHigh : Nat
  timer0Low : Nat
  timer0High : Nat
  vcountLow : Nat
  vcountHigh : Nat
  vframeLow : Nat
  vframeHigh : Nat
  fromTime : Int
  toTime : Int
  buttonPresses : List Nat
  canBeShiny : Bool
  tid : Nat
  sid : Nat
  nature : Nature
  minIVs : IVs
  maxIVs : IVs
  shouldCheckMaxIVs : Bool
  hiddenType : Element
  minHiddenPower : Nat
  minFrame : Nat
  maxFrame : Nat

/-! ## Machine arithmetic -/

/-- The value an integer expression takes when it is stored in a `uint64_t`. -/
def uint64_t (z : Int) : Nat := (z % 2 ^ 64).toNat

/-- The value an integer expression takes when it is stored in a `uint32_t`. -/
def uint32_t (z : Int) : Nat := (z % 2 ^ 32).toNat

/-- Multiplication of two `uint64_t` values. -/
def mul64 (a b : Nat) : Nat := a * b % 2 ^ 64

/-- Whole seconds of a duration on the second-resolution time line
(`time_duration::total_seconds`). -/
def total_seconds (duration : Int) : Int := duration

/-! ## FrameChecker -/

namespace FrameChecker

/-- Embeds `FrameChecker::CheckNature` (lines 43-48). -/
def CheckNature (m_criteria : Criteria) (nature : Nature) : Bool :=
  (m_criteria.nature == Nature.ANY) ||
    (m_criteria.nature == Nature.UNKNOWN) ||
    (m_criteria.nature == nature)

/-- Embeds `FrameChecker::CheckIVs` (lines 50-55). -/
def CheckIVs (m_criteria : Criteria) (ivs : IVs) : Bool :=
  ivs.betterThanOrEqual m_criteria.minIVs &&
    (!m_criteria.shouldCheckMaxIVs || ivs.worseThanOrEqual m_criteria.maxIVs)

/-- Embeds `FrameChecker::CheckHiddenPower` (lines 57-71). -/
def CheckHiddenPower (d : DerivedStats) (m_criteria : Criteria) (ivs : IVs) : Bool :=
  if m_criteria.hiddenType = Element.UNKNOWN then
    true
  else if m_criteria.hiddenType = Element.ANY ∨ m_criteria.hiddenType = d.HiddenType ivs then
    decide (d.HiddenPower ivs ≥ m_criteria.minHiddenPower)
  else
    false

/-- Embeds `FrameChecker::operator()` (lines 37-41). -/
def call (d : DerivedStats) (m_criteria : Criteria) (frame : WonderCardFrame) : Bool :=
  CheckNature m_criteria frame.nature &&
    CheckIVs m_criteria frame.ivs && CheckHiddenPower d m_criteria frame.ivs

end FrameChecker

/-! ## The estimator -/

namespace Criteria

/-- Local `seconds` of `ExpectedNumberOfResults` (line 95). -/
def seconds (c : Criteria) : Nat := uint64_t (total_seconds (c.toTime - c.fromTime) + 1)

/-- Local `keyCombos` (line 96): the size of `buttonPresses`. -/
def keyCombos (c : Criteria) : Nat := uint64_t (c.buttonPresses.length : Int)

/-- Local `timer0Values` (line 97). -/
def timer0Values (c : Criteria) : Nat := uint64_t (((c.timer0High : Int) - c.timer0Low) + 1)

/-- Local `vcountValues` (line 98). -/
def vcountValues (c : Criteria) : Nat := uint64_t (((c.vcountHigh : Int) - c.vcountLow) + 1)

/-- Local `vframeValues` (line 99). -/
def vframeValues (c : Criteria) : Nat := uint64_t (((c.vframeHigh : Int) - c.vframeLow) + 1)

/-- Local `numSeeds` (lines 101-102), a chain of 64-bit products. -/
def numSeeds (c : Criteria) : Nat :=
  mul64 (mul64 (mul64 (mul64 c.seconds c.keyCombos) c.timer0Values) c.vcountValues)
    c.vframeValues

/-- Local `numFrames` (line 104). -/
def numFrames (c : Criteria) : Nat := uint64_t ((c.maxFrame : Int) - c.minFrame + 1)

/-- Local `hpDivisor` (lines 106-115). -/
def hpDivisor (c : Criteria) : Nat :=
  if c.hiddenType ≠ Element.UNKNOWN then
    if c.hiddenType ≠ Element.ANY then mul64 40 16 else 40
  else 1

/-- Local `maxIVs` (line 117), which shadows the field of the same name. -/
def localMaxIVs (c : Criteria) : IVs :=
  if c.shouldCheckMaxIVs then c.maxIVs else IVs.ofWord 0x7FFF7FFF

/-- Local `numIVs` (lines 119-124), a `uint32_t`. -/
def numIVs (c : Criteria) : Nat :=
  uint32_t
    ((((c.localMaxIVs.hp : Int) - c.minIVs.hp + 1) *
      ((c.localMaxIVs.atk : Int) - c.minIVs.atk + 1) *
      ((c.localMaxIVs.df : Int) - c.minIVs.df + 1) *
      ((c.localMaxIVs.sa : Int) - c.minIVs.sa + 1) *
      ((c.localMaxIVs.sd : Int) - c.minIVs.sd + 1) *
      ((c.localMaxIVs.sp : Int) - c.minIVs.sp + 1)))

/-- Local `natureDivisor` (line 126). -/
def natureDivisor (c : Criteria) : Nat :=
  if c.nature ≠ Nature.ANY then 25 else 1

/-- Embeds the return expression of
`WonderCardSeedSearcher::Criteria::ExpectedNumberOfResults` (lines 128-129),
over the locals above. -/
def ExpectedNumberOfResults (c : Criteria) : Nat :=
  mul64 (mul64 c.numSeeds c.numFrames) c.numIVs /
    mul64 (mul64 (32 * 32 * 32 * 32 * 32 * 32) c.natureDivisor) c.hpDivisor

/-- The Criteria invariants: ordered time, register and frame ranges, minimum
statistics in `0..31`, and a supplied maximum in `0..31` and componentwise at
least the minimum. -/
def Invariants (c : Criteria) : Prop :=
  c.fromTime ≤ c.toTime ∧ c.timer0Low ≤ c.timer0High ∧ c.vcountLow ≤ c.vcountHigh ∧
    c.vframeLow ≤ c.vframeHigh ∧ c.minFrame ≤ c.maxFrame ∧ c.minIVs.InRange ∧
    (c.shouldCheckMaxIVs = true → c.maxIVs.InRange ∧ c.minIVs.Le c.maxIVs)

instance (c : Criteria) : Decidable c.Invariants := by
  unfold Invariants; infer_instance

end Criteria

/-! ## The search -/

/-- Modelled from the spec: `HashedSeed`, "an opaque value produced by the external
enumerator"; its declaration is outside the sources. -/
structure HashedSeed where
  rawSeed : Nat
  deriving DecidableEq

/-- The arguments `WonderCardSeedSearcher::Search` passes to the constructor of
`HashedSeedGenerator` (lines 136-143), in the order of the source. The class
itself is outside the sources. -/
structure HashedSeedGenerator where
  version : Nat
  macAddressLow : Nat
  macAddressHigh : Nat
  timer0Low : Nat
  timer0High : Nat
  vcountLow : Nat
  vcountHigh : Nat
  vframeLow : Nat
  vframeHigh : Nat
  fromTime : Int
  toTime : Int
  buttonPresses : List Nat

/-- The arguments `FrameGeneratorFactory::operator()` passes to the constructor of
`WonderCardFrameGenerator` (lines 84-85). The class itself is outside the
sources. -/
structure WonderCardFrameGenerator where
  seed : HashedSeed
  canBeShiny : Bool
  tid : Nat
  sid : Nat

/-- The two bounds given to `SearcherType::FrameRange` (line 146). -/
structure FrameRange where
  min : Nat
  max : Nat

/-- Embeds `FrameGeneratorFactory::operator()` (lines 82-86). -/
def FrameGeneratorFactory.call (m_criteria : Criteria) (seed : HashedSeed) :
    WonderCardFrameGenerator :=
  { seed := seed, canBeShiny := m_criteria.canBeShiny,
    tid := m_criteria.tid, sid := m_criteria.sid }

namespace WonderCardSeedSearcher

/-- Local `seedGenerator` of `Search` (lines 136-143). -/
def seedGenerator (criteria : Criteria) : HashedSeedGenerator :=
  { version := criteria.version
    macAddressLow := criteria.macAddressLow, macAddressHigh := criteria.macAddressHigh
    timer0Low := criteria.timer0Low, timer0High := criteria.timer0High
    vcountLow := criteria.vcountLow, vcountHigh := criteria.vcountHigh
    vframeLow := criteria.vframeLow, vframeHigh := criteria.vframeHigh
    fromTime := criteria.fromTime, toTime := criteria.toTime
    buttonPresses := criteria.buttonPresses }

/-- Embeds `WonderCardSeedSearcher::Search` (lines 132-153). The traversal engine
`SearcherType::Search` is outside the sources and is the parameter
`searcher`; the callbacks are values of arbitrary types `R` and `P`. -/
def Search {R P Out : Type}
    (searcher : HashedSeedGenerator → (HashedSeed → WonderCardFrameGenerator) → FrameRange →
      (WonderCardFrame → Bool) → R → P → Out)
    (d : DerivedStats) (criteria : Criteria) (resultHandler : R) (progressHandler : P) : Out :=
  let frameChecker := FrameChecker.call d criteria
  let frameRange : FrameRange := { min := criteria.minFrame, max := criteria.maxFrame }
  searcher (seedGenerator criteria) (FrameGeneratorFactory.call criteria) frameRange
    frameChecker resultHandler progressHandler

end WonderCardSeedSearcher

/-- Modelled from the spec: the two external collaborators of the traversal, the
seed enumerator ("a lazy, finite, restartable sequence of Seed values") and
the per-seed frame-sequence generator (the frame it yields at a frame
offset). Both are outside the sources and are left arbitrary. -/
structure Collaborators where
  seeds : HashedSeedGenerator → List HashedSeed
  frameAt : WonderCardFrameGenerator → Nat → WonderCardFrame

/-- One invocation of the result callback: the frame with "its originating
seed/frame-index context". -/
structure ResultCall where
  seed : HashedSeed
  index : Nat
  frame : WonderCardFrame

/-- Modelled from the spec: the generic traversal engine, which is outside the
sources. It "for every enumerated seed constructs a frame generator, walks
frames within the range, tests each with FrameChecker, and on acceptance
invokes the result callback". The value is the sequence of invocations of
the result callback, in seed-enumeration order and then increasing frame
index. -/
def contractSearcher (ext : Collaborators) {R P : Type}
    (seedGenerator : HashedSeedGenerator)
    (factory : HashedSeed → WonderCardFrameGenerator) (frameRange : FrameRange)
    (checker : WonderCardFrame → Bool) (_resultHandler : R) (_progressHandler : P) :
    List ResultCall :=
  (ext.seeds seedGenerator).flatMap fun seed =>
    ((List.range (frameRange.max + 1 - frameRange.min)).map
        fun k => frameRange.min + k).filterMap fun index =>
      if checker (ext.frameAt (factory seed) index) then
        some { seed := seed, index := index, frame := ext.frameAt (factory seed) index }
      else none

/-! ## The estimator as the spec words it -/

namespace Spec

/-- Whole seconds of `toTime - fromTime`, plus one. -/
def secondsCount (c : Criteria) : Nat := (c.toTime - c.fromTime).toNat + 1

/-- Count of control-input combinations. -/
def keyComboCount (c : Criteria) : Nat := c.buttonPresses.length

/-- Width of the timer0 range. -/
def timer0Count (c : Criteria) : Nat := c.timer0High - c.timer0Low + 1

/-- Width of the vcount range. -/
def vcountCount (c : Criteria) : Nat := c.vcountHigh - c.vcountLow + 1

/-- Width of the vframe range. -/
def vframeCount (c : Criteria) : Nat := c.vframeHigh - c.vframeLow + 1

/-- The spec's `seedSpaceSize`. -/
def seedSpaceSize (c : Criteria) : Nat :=
  secondsCount c * keyComboCount c * timer0Count c * vcountCount c * vframeCount c

/-- The spec's `frameWindowSize`. -/
def frameWindowSize (c : Criteria) : Nat := c.maxFrame - c.minFrame + 1

/-- The effective maximum: the supplied maximum if present, else the full range
ceiling `31` in every dimension. -/
def effectiveMax (c : Criteria) : IVs :=
  if c.shouldCheckMaxIVs then c.maxIVs else ⟨31, 31, 31, 31, 31, 31⟩

/-- The spec's `statisticCombinationCount`. -/
def statisticCombinationCount (c : Criteria) : Nat :=
  ((effectiveMax c).hp - c.minIVs.hp + 1) * ((effectiveMax c).atk - c.minIVs.atk + 1) *
    ((effectiveMax c).df - c.minIVs.df + 1) * ((effectiveMax c).sa - c.minIVs.sa + 1) *
    ((effectiveMax c).sd - c.minIVs.sd + 1) * ((effectiveMax c).sp - c.minIVs.sp + 1)

/-- The spec's `natureDivisor`: 25 if a specific nature is requested, else 1. -/
def natureDivisor : Nature → Nat
  | Nature.specific _ => 25
  | Nature.ANY => 1
  | Nature.UNKNOWN => 1

/-- The spec's `hiddenPowerDivisor`: 1 if the filter is unset, 40 for the
wildcard type, 40 * 16 for a specific type. -/
def hiddenPowerDivisor : Element → Nat
  | Element.UNKNOWN => 1
  | Element.ANY => 40
  | Element.specific _ => 40 * 16

/-- The spec's result, over the unbounded integers. -/
def expectedNumberOfResults (c : Criteria) : Nat :=
  seedSpaceSize c * frameWindowSize c * statisticCombinationCount c /
    (32 ^ 6 * natureDivisor c.nature * hiddenPowerDivisor c.hiddenType)

end Spec

/-! ## Sample inputs -/

/-- A derived-statistics pair used at concrete inputs: the type is read off the
low bit of `hp`, the power is `30 + hp`. -/
def sampleDerived : DerivedStats :=
  { HiddenType := fun v => Element.specific (v.hp % 2)
    HiddenPower := fun v => 30 + v.hp }

/-- A search over two seconds, three control inputs and small register ranges,
for one specific nature and one specific derived type. -/
def sampleCriteria : Criteria :=
  { version := 0, macAddressLow := 0x123456, macAddressHigh := 0x0009BF
    timer0Low := 0xC67, timer0High := 0xC69
    vcountLow := 0x5F, vcountHigh := 0x60
    vframeLow := 5, vframeHigh := 8
    fromTime := 1000, toTime := 101000
    buttonPresses := [0, 1, 2]
    canBeShiny := true, tid := 12345, sid := 54321
    nature := Nature.specific 3
    minIVs := ⟨30, 0, 30, 0, 30, 30⟩
    maxIVs := ⟨31, 31, 31, 1, 31, 31⟩
    shouldCheckMaxIVs := true
    hiddenType := Element.specific 1
    minHiddenPower := 60
    minFrame := 1, maxFrame := 100000 }

/-- The baseline of the spec's sanity property: wildcard nature `ANY`, no
derived-attribute filter, full statistic range, a one-second time range, one
control-input combination, single-valued registers and an ordered frame
range. -/
def Criteria.IsBaseline (c : Criteria) : Prop :=
  c.nature = Nature.ANY ∧ c.hiddenType = Element.UNKNOWN ∧
    c.minIVs = ⟨0, 0, 0, 0, 0, 0⟩ ∧
    (c.shouldCheckMaxIVs = false ∨ c.maxIVs = ⟨31, 31, 31, 31, 31, 31⟩) ∧
    c.toTime = c.fromTime ∧ c.buttonPresses.length = 1 ∧
    c.timer0High = c.timer0Low ∧ c.vcountHigh = c.vcountLow ∧
    c.vframeHigh = c.vframeLow ∧ c.minFrame ≤ c.maxFrame

instance (c : Criteria) : Decidable c.IsBaseline := by
  unfold Criteria.IsBaseline; infer_instance

/-- A baseline search (unit seed space, all-accepting filter) over the frame
range `[minFrame, maxFrame]`. -/
def baselineCriteria (minFrame maxFrame : Nat) : Criteria :=
  { version := 0, macAddressLow := 0x123456, macAddressHigh := 0x0009BF
    timer0Low := 0xC67, timer0High := 0xC67
    vcountLow := 0x5F, vcountHigh := 0x5F
    vframeLow := 5, vframeHigh := 5
    fromTime := 1000, toTime := 1000
    buttonPresses := [0]
    canBeShiny := true, tid := 12345, sid := 54321
    nature := Nature.ANY
    minIVs := ⟨0, 0, 0, 0, 0, 0⟩
    maxIVs := ⟨0, 0, 0, 0, 0, 0⟩
    shouldCheckMaxIVs := false
    hiddenType := Element.UNKNOWN
    minHiddenPower := 0
    minFrame := minFrame, maxFrame := maxFrame }

/-- The search of `sampleCriteria` with a larger seed space and a longer frame
window: more seconds, one more control input, wider register ranges. -/
def sampleCriteriaWide : Criteria :=
  { sampleCriteria with
    timer0High := 0xC6B, vcountHigh := 0x61, vframeHigh := 9
    toTime := 201000
    buttonPresses := [0, 1, 2, 3]
    maxFrame := 200000 }

/-- The search of `sampleCriteria` with a wider statistic range: lower minimum
and no maximum bound. -/
def sampleCriteriaLooseIVs : Criteria :=
  { sampleCriteria with
    minIVs := ⟨28, 0, 28, 0, 28, 28⟩
    shouldCheckMaxIVs := false }

/-- A baseline search over the 25 frames `[0, 24]` whose nature is left
`UNKNOWN`. -/
def natureUnknownCriteria : Criteria :=
  { baselineCriteria 0 24 with nature := Nature.UNKNOWN }

/-- A frame of nature 3 whose statistics pass `sampleCriteria`. -/
def sampleFrame : WonderCardFrame :=
  { nature := Nature.specific 3, ivs := ⟨31, 20, 31, 1, 30, 31⟩ }

/-- The statistics of `sampleFrame` under another nature. -/
def sampleFrameOtherNature : WonderCardFrame :=
  { nature := Nature.specific 7, ivs := ⟨31, 20, 31, 1, 30, 31⟩ }

/-- A frame of nature 3 whose derived type under `sampleDerived` is 0, not the
type 1 that `sampleCriteria` asks for, while its derived power 60 reaches the
threshold. -/
def sampleFrameOtherType : WonderCardFrame :=
  { nature := Nature.specific 3, ivs := ⟨30, 20, 31, 1, 30, 31⟩ }

/-- The divisor of the return expression of `ExpectedNumberOfResults` (line 129). -/
def Criteria.divisor (c : Criteria) : Nat :=
  mul64 (mul64 (32 * 32 * 32 * 32 * 32 * 32) c.natureDivisor) c.hpDivisor

/-- A one-day search (86400 seconds, four control inputs, 16 timer0 values, 16
vcount values, 8 vframe values) over the frames `[1, 1000]` with an
all-accepting filter. -/
def oneDayCriteria : Criteria :=
  { baselineCriteria 1 1000 with
    timer0Low := 0xC60, timer0High := 0xC6F
    vcountLow := 0x50, vcountHigh := 0x5F
    vframeLow := 0, vframeHigh := 7
    fromTime := 0, toTime := 86399
    buttonPresses := [0, 1, 2, 3] }

/-- The search of `sampleCriteria` with no control input at all and inverted
time, timer0 and frame ranges. -/
def noButtonsCriteria : Criteria :=
  { sampleCriteria with
    buttonPresses := []
    fromTime := 5000, toTime := 1000
    timer0Low := 0xC69, timer0High := 0xC67
    minFrame := 100, maxFrame := 1 }

/-! ## Arithmetic lemmas -/

theorem uint64_t_natCast (n : Nat) : uint64_t (n : Int) = n % 2 ^ 64 := by
  unfold uint64_t
  have h : ((n : Int) % 2 ^ 64) = ((n % 2 ^ 64 : Nat) : Int) := by push_cast; rfl
  rw [h, Int.toNat_natCast]

theorem uint32_t_natCast (n : Nat) : uint32_t (n : Int) = n % 2 ^ 32 := by
  unfold uint32_t
  have h : ((n : Int) % 2 ^ 32) = ((n % 2 ^ 32 : Nat) : Int) := by push_cast; rfl
  rw [h, Int.toNat_natCast]

theorem uint64_t_range {lo hi : Nat} (h : lo ≤ hi) :
    uint64_t (((hi : Int) - lo) + 1) = (hi - lo + 1) % 2 ^ 64 := by
  have e : ((hi : Int) - lo) + 1 = ((hi - lo + 1 : Nat) : Int) := by omega
  rw [e, uint64_t_natCast]

theorem uint64_t_seconds {a b : Int} (h : a ≤ b) :
    uint64_t (total_seconds (b - a) + 1) = ((b - a).toNat + 1) % 2 ^ 64 := by
  have e : total_seconds (b - a) + 1 = (((b - a).toNat + 1 : Nat) : Int) := by
    unfold total_seconds
    push_cast
    rw [Int.toNat_of_nonneg (by omega)]
  rw [e, uint64_t_natCast]

theorem mul64_mod (a b : Nat) : mul64 (a % 2 ^ 64) (b % 2 ^ 64) = a * b % 2 ^ 64 := by
  unfold mul64
  rw [Nat.mod_mul_mod, Nat.mul_mod_mod]

theorem mul64_mod_left (a b : Nat) : mul64 (a % 2 ^ 64) b = a * b % 2 ^ 64 := by
  unfold mul64
  rw [Nat.mod_mul_mod]

theorem mul64_of_lt {a b : Nat} (h : a * b < 2 ^ 64) : mul64 a b = a * b := by
  unfold mul64
  exact Nat.mod_eq_of_lt h

theorem mul_le_pow_six {a b c d e f : Nat} (ha : a ≤ 32) (hb : b ≤ 32) (hc : c ≤ 32)
    (hd : d ≤ 32) (he : e ≤ 32) (hf : f ≤ 32) : a * b * c * d * e * f ≤ 32 ^ 6 := by
  have h := Nat.mul_le_mul (Nat.mul_le_mul (Nat.mul_le_mul (Nat.mul_le_mul
    (Nat.mul_le_mul ha hb) hc) hd) he) hf
  exact le_trans h (by norm_num)

/-! ## The estimator's locals under the invariants -/

namespace Criteria

theorem localMaxIVs_eq (c : Criteria) : c.localMaxIVs = Spec.effectiveMax c := by
  unfold localMaxIVs Spec.effectiveMax
  split
  · rfl
  · decide

theorem numSeeds_eq {c : Criteria} (h : c.Invariants) :
    c.numSeeds = Spec.seedSpaceSize c % 2 ^ 64 := by
  obtain ⟨ht, h0, hv, hf, -⟩ := h
  unfold numSeeds seconds keyCombos timer0Values vcountValues vframeValues
  rw [uint64_t_seconds ht, uint64_t_natCast, uint64_t_range h0, uint64_t_range hv,
    uint64_t_range hf, mul64_mod, mul64_mod, mul64_mod, mul64_mod]
  rfl

theorem numFrames_eq {c : Criteria} (h : c.Invariants) :
    c.numFrames = Spec.frameWindowSize c % 2 ^ 64 := by
  obtain ⟨-, -, -, -, hm, -⟩ := h
  unfold numFrames
  rw [uint64_t_range hm]
  rfl

/-- Under the invariants the effective maximum is in `0..31` and componentwise at
least the minimum. -/
theorem effectiveMax_bounds {c : Criteria} (h : c.Invariants) :
    (Spec.effectiveMax c).InRange ∧ c.minIVs.Le (Spec.effectiveMax c) := by
  obtain ⟨-, -, -, -, -, hmin, hmax⟩ := h
  unfold Spec.effectiveMax
  split
  · next hs => exact hmax hs
  · unfold IVs.InRange IVs.Le at *
    simp only [le_refl, true_and, and_true]
    exact hmin

theorem statisticCombinationCount_le {c : Criteria} (h : c.Invariants) :
    Spec.statisticCombinationCount c ≤ 32 ^ 6 := by
  obtain ⟨hr, -⟩ := effectiveMax_bounds h
  unfold IVs.InRange at hr
  unfold Spec.statisticCombinationCount
  apply mul_le_pow_six <;> omega

theorem statisticCombinationCount_pos {c : Criteria} :
    0 < Spec.statisticCombinationCount c := by
  unfold Spec.statisticCombinationCount
  positivity

theorem numIVs_eq {c : Criteria} (h : c.Invariants) :
    c.numIVs = Spec.statisticCombinationCount c := by
  have hle := statisticCombinationCount_le h
  obtain ⟨-, hl⟩ := effectiveMax_bounds h
  unfold IVs.Le at hl
  obtain ⟨l1, l2, l3, l4, l5, l6⟩ := hl
  unfold numIVs
  rw [localMaxIVs_eq]
  have e : (((Spec.effectiveMax c).hp : Int) - c.minIVs.hp + 1) *
      (((Spec.effectiveMax c).atk : Int) - c.minIVs.atk + 1) *
      (((Spec.effectiveMax c).df : Int) - c.minIVs.df + 1) *
      (((Spec.effectiveMax c).sa : Int) - c.minIVs.sa + 1) *
      (((Spec.effectiveMax c).sd : Int) - c.minIVs.sd + 1) *
      (((Spec.effectiveMax c).sp : Int) - c.minIVs.sp + 1) =
      ((Spec.statisticCombinationCount c : Nat) : Int) := by
    unfold Spec.statisticCombinationCount
    push_cast [Nat.cast_sub l1, Nat.cast_sub l2, Nat.cast_sub l3, Nat.cast_sub l4,
      Nat.cast_sub l5, Nat.cast_sub l6]
    rfl
  rw [e, uint32_t_natCast]
  exact Nat.mod_eq_of_lt (lt_of_le_of_lt hle (by norm_num))

theorem natureDivisor_eq {c : Criteria} (h : c.nature ≠ Nature.UNKNOWN) :
    c.natureDivisor = Spec.natureDivisor c.nature := by
  unfold natureDivisor
  cases hn : c.nature
  · simp [Spec.natureDivisor]
  · simp [Spec.natureDivisor]
  · exact absurd hn h

theorem hpDivisor_eq (c : Criteria) : c.hpDivisor = Spec.hiddenPowerDivisor c.hiddenType := by
  unfold hpDivisor
  cases ht : c.hiddenType
  · simp only [ne_eq, reduceCtorEq, not_false_eq_true, if_true, Spec.hiddenPowerDivisor]
    exact mul64_of_lt (by norm_num)
  · simp [Spec.hiddenPowerDivisor]
  · simp [Spec.hiddenPowerDivisor]

theorem natureDivisor_le (c : Criteria) : c.natureDivisor ≤ 25 := by
  unfold natureDivisor
  split <;> omega

theorem hiddenPowerDivisor_le (e : Element) : Spec.hiddenPowerDivisor e ≤ 640 := by
  cases e <;> simp [Spec.hiddenPowerDivisor]

/-- The divisor of the estimator never wraps: it is `32^6 * natureDivisor *
hpDivisor` over the integers. -/
theorem divisor_exact (c : Criteria) :
    mul64 (mul64 (32 * 32 * 32 * 32 * 32 * 32) c.natureDivisor) c.hpDivisor =
      32 ^ 6 * c.natureDivisor * Spec.hiddenPowerDivisor c.hiddenType := by
  rw [hpDivisor_eq]
  have h1 : 32 * 32 * 32 * 32 * 32 * 32 * c.natureDivisor ≤ 1073741824 * 25 :=
    Nat.mul_le_mul (by norm_num) (natureDivisor_le c)
  have h2 : 32 * 32 * 32 * 32 * 32 * 32 * c.natureDivisor *
      Spec.hiddenPowerDivisor c.hiddenType ≤ 1073741824 * 25 * 640 :=
    Nat.mul_le_mul h1 (hiddenPowerDivisor_le _)
  rw [mul64_of_lt (lt_of_le_of_lt h1 (by norm_num)),
    mul64_of_lt (lt_of_le_of_lt h2 (by norm_num))]
  norm_num

/-- The divisor of the estimator, for a nature other than `UNKNOWN`. -/
theorem divisor_eq {c : Criteria} (h : c.nature ≠ Nature.UNKNOWN) :
    mul64 (mul64 (32 * 32 * 32 * 32 * 32 * 32) c.natureDivisor) c.hpDivisor =
      32 ^ 6 * Spec.natureDivisor c.nature * Spec.hiddenPowerDivisor c.hiddenType := by
  rw [divisor_exact, natureDivisor_eq h]

/-- The numerator of the estimator is the exact product reduced modulo `2^64`. -/
theorem numerator_eq {c : Criteria} (h : c.Invariants) :
    mul64 (mul64 c.numSeeds c.numFrames) c.numIVs =
      Spec.seedSpaceSize c * Spec.frameWindowSize c * Spec.statisticCombinationCount c
        % 2 ^ 64 := by
  rw [numSeeds_eq h, numFrames_eq h, numIVs_eq h, mul64_mod, mul64_mod_left]

end Criteria

namespace Criteria

/-- Under the invariants the estimator is the exact numerator, reduced modulo
`2^64`, over the exact divisor. -/
theorem ExpectedNumberOfResults_eq {c : Criteria} (h : c.Invariants) :
    c.ExpectedNumberOfResults =
      Spec.seedSpaceSize c * Spec.frameWindowSize c * Spec.statisticCombinationCount c
        % 2 ^ 64 / (32 ^ 6 * c.natureDivisor * Spec.hiddenPowerDivisor c.hiddenType) := by
  unfold ExpectedNumberOfResults
  rw [numerator_eq h, divisor_exact]

end Criteria

/-! ## The estimator: claims -/

/-- C1: for every Criteria that satisfies the Criteria invariants, whose nature is
`Nature::ANY` or one specific nature, and whose exact numerator
`seedSpaceSize * frameWindowSize * statisticCombinationCount` is below `2^64`,
`ExpectedNumberOfResults` returns exactly the floor of that numerator over
`32^6 * natureDivisor * hiddenPowerDivisor`, with `natureDivisor` 25 for a
specific nature and 1 for `ANY`, and `hiddenPowerDivisor` 1, 40 or 640 for the
hidden type `UNKNOWN`, `ANY` or a specific one. -/
theorem expectedNumberOfResults_exact (c : Criteria) (hinv : c.Invariants)
    (hnature : c.nature = Nature.ANY ∨ ∃ n, c.nature = Nature.specific n)
    (hfit : Spec.seedSpaceSize c * Spec.frameWindowSize c *
      Spec.statisticCombinationCount c < 2 ^ 64) :
    c.ExpectedNumberOfResults =
      Spec.seedSpaceSize c * Spec.frameWindowSize c * Spec.statisticCombinationCount c /
        (32 ^ 6 * Spec.natureDivisor c.nature * Spec.hiddenPowerDivisor c.hiddenType) := by
  have hn : c.nature ≠ Nature.UNKNOWN := by
    rcases hnature with h | ⟨n, h⟩ <;> rw [h] <;> exact fun e => Nature.noConfusion e
  rw [Criteria.ExpectedNumberOfResults_eq hinv, Criteria.natureDivisor_eq hn,
    Nat.mod_eq_of_lt hfit]

/-- C1 at `sampleCriteria`: 7200072 seeds, 100000 frames and 1024 statistic
combinations over `32^6 * 25 * 640` give 42. -/
theorem expectedNumberOfResults_exact_witness :
    sampleCriteria.Invariants ∧ sampleCriteria.ExpectedNumberOfResults = 42 :=
  ⟨by decide,
    (expectedNumberOfResults_exact sampleCriteria (by decide) (Or.inr ⟨3, rfl⟩)
      (by decide)).trans (by decide)⟩

/-- The baseline of the spec's sanity property, as far as this embedding decides
it: for a baseline Criteria (nature `ANY`, hidden type `UNKNOWN`, full
statistic range, one second, one control-input combination, single-valued
registers, `maxFrame >= minFrame`) whose frame window satisfies
`frameWindowSize * 32^6 < 2^64`, the estimate is
`frameWindowSize = maxFrame - minFrame + 1`. -/
theorem baseline_estimate_of_window_fits (c : Criteria) (hb : c.IsBaseline)
    (hfit : (c.maxFrame - c.minFrame + 1) * 32 ^ 6 < 2 ^ 64) :
    c.ExpectedNumberOfResults = c.maxFrame - c.minFrame + 1 := by
  obtain ⟨hn, ht, hmin, hmax, htime, hkeys, h0, hv, hf, hframe⟩ := hb
  have hem : Spec.effectiveMax c = ⟨31, 31, 31, 31, 31, 31⟩ := by
    unfold Spec.effectiveMax
    rcases hmax with h | h
    · simp [h]
    · simp [h]
  have hinv : c.Invariants := by
    refine ⟨le_of_eq htime.symm, le_of_eq h0.symm, le_of_eq hv.symm, le_of_eq hf.symm,
      hframe, ?_, ?_⟩
    · rw [hmin]; decide
    · intro hs
      rcases hmax with h | h
      · rw [h] at hs; exact absurd hs (by decide)
      · rw [h, hmin]; decide
  have hseed : Spec.seedSpaceSize c = 1 := by
    simp [Spec.seedSpaceSize, Spec.secondsCount, Spec.keyComboCount, Spec.timer0Count,
      Spec.vcountCount, Spec.vframeCount, htime, hkeys, h0, hv, hf]
  have hiv : Spec.statisticCombinationCount c = 32 ^ 6 := by
    unfold Spec.statisticCombinationCount
    rw [hem, hmin]
    norm_num
  have hnd : c.natureDivisor = 1 := by simp [Criteria.natureDivisor, hn]
  rw [Criteria.ExpectedNumberOfResults_eq hinv, hseed, hiv, hnd, ht]
  unfold Spec.frameWindowSize
  rw [one_mul, Nat.mod_eq_of_lt hfit]
  simp [Spec.hiddenPowerDivisor]

/-- C5: `ExpectedNumberOfResults` is monotonically non-decreasing in frame-window
size and in seed-space size: for Criteria `c1`, `c2` that satisfy the
invariants, agree on nature, hiddenType, minIVs, shouldCheckMaxIVs and maxIVs,
with the frame window and each seed-space factor (seconds, control-input
count, timer0, vcount and vframe widths) of `c1` at most that of `c2`, and
the numerator product of `c2` below `2^64`, the estimate of `c1` is at most
the estimate of `c2`. -/
theorem expectedNumberOfResults_mono_space (c1 c2 : Criteria)
    (hinv1 : c1.Invariants) (hinv2 : c2.Invariants)
    (hnature : c1.nature = c2.nature) (htype : c1.hiddenType = c2.hiddenType)
    (hmin : c1.minIVs = c2.minIVs) (hcheck : c1.shouldCheckMaxIVs = c2.shouldCheckMaxIVs)
    (hmax : c1.maxIVs = c2.maxIVs)
    (hframes : Spec.frameWindowSize c1 ≤ Spec.frameWindowSize c2)
    (hseconds : Spec.secondsCount c1 ≤ Spec.secondsCount c2)
    (hkeys : Spec.keyComboCount c1 ≤ Spec.keyComboCount c2)
    (htimer0 : Spec.timer0Count c1 ≤ Spec.timer0Count c2)
    (hvcount : Spec.vcountCount c1 ≤ Spec.vcountCount c2)
    (hvframe : Spec.vframeCount c1 ≤ Spec.vframeCount c2)
    (hfit : Spec.seedSpaceSize c2 * Spec.frameWindowSize c2 *
      Spec.statisticCombinationCount c2 < 2 ^ 64) :
    c1.ExpectedNumberOfResults ≤ c2.ExpectedNumberOfResults := by
  have hiv : Spec.statisticCombinationCount c1 = Spec.statisticCombinationCount c2 := by
    unfold Spec.statisticCombinationCount Spec.effectiveMax
    rw [hmin, hcheck, hmax]
  have hseed : Spec.seedSpaceSize c1 ≤ Spec.seedSpaceSize c2 :=
    Nat.mul_le_mul (Nat.mul_le_mul (Nat.mul_le_mul (Nat.mul_le_mul hseconds hkeys) htimer0)
      hvcount) hvframe
  have hnum : Spec.seedSpaceSize c1 * Spec.frameWindowSize c1 *
      Spec.statisticCombinationCount c1 ≤ Spec.seedSpaceSize c2 * Spec.frameWindowSize c2 *
      Spec.statisticCombinationCount c2 :=
    Nat.mul_le_mul (Nat.mul_le_mul hseed hframes) (le_of_eq hiv)
  have hnd : c1.natureDivisor = c2.natureDivisor := by
    unfold Criteria.natureDivisor
    rw [hnature]
  rw [Criteria.ExpectedNumberOfResults_eq hinv1, Criteria.ExpectedNumberOfResults_eq hinv2,
    Nat.mod_eq_of_lt hfit, Nat.mod_eq_of_lt (lt_of_le_of_lt hnum hfit), hnd, htype]
  exact Nat.div_le_div_right hnum

/-- C6: `ExpectedNumberOfResults` is monotonically non-decreasing in
statistic-range width: for Criteria `c1`, `c2` that satisfy the invariants,
agree on every seed-space parameter, the frame range, nature and hiddenType,
with the IV interval of `c1` contained in that of `c2` in each component
(`minIVs c2 <= minIVs c1`, effective max of `c1 <=` effective max of `c2`, a
missing max bound counting as 31), and the numerator product of `c2` below
`2^64`, the estimate of `c1` is at most the estimate of `c2`. -/
theorem expectedNumberOfResults_mono_ivs (c1 c2 : Criteria)
    (hinv1 : c1.Invariants) (hinv2 : c2.Invariants)
    (hfrom : c1.fromTime = c2.fromTime) (hto : c1.toTime = c2.toTime)
    (hkeys : c1.buttonPresses = c2.buttonPresses)
    (ht0l : c1.timer0Low = c2.timer0Low) (ht0h : c1.timer0High = c2.timer0High)
    (hvcl : c1.vcountLow = c2.vcountLow) (hvch : c1.vcountHigh = c2.vcountHigh)
    (hvfl : c1.vframeLow = c2.vframeLow) (hvfh : c1.vframeHigh = c2.vframeHigh)
    (hminF : c1.minFrame = c2.minFrame) (hmaxF : c1.maxFrame = c2.maxFrame)
    (hnature : c1.nature = c2.nature) (htype : c1.hiddenType = c2.hiddenType)
    (hlow : c2.minIVs.Le c1.minIVs)
    (hhigh : (Spec.effectiveMax c1).Le (Spec.effectiveMax c2))
    (hfit : Spec.seedSpaceSize c2 * Spec.frameWindowSize c2 *
      Spec.statisticCombinationCount c2 < 2 ^ 64) :
    c1.ExpectedNumberOfResults ≤ c2.ExpectedNumberOfResults := by
  have hseed : Spec.seedSpaceSize c1 = Spec.seedSpaceSize c2 := by
    unfold Spec.seedSpaceSize Spec.secondsCount Spec.keyComboCount Spec.timer0Count
      Spec.vcountCount Spec.vframeCount
    rw [hfrom, hto, hkeys, ht0l, ht0h, hvcl, hvch, hvfl, hvfh]
  have hframes : Spec.frameWindowSize c1 = Spec.frameWindowSize c2 := by
    unfold Spec.frameWindowSize
    rw [hminF, hmaxF]
  have hiv : Spec.statisticCombinationCount c1 ≤ Spec.statisticCombinationCount c2 := by
    obtain ⟨l1, l2, l3, l4, l5, l6⟩ := hlow
    obtain ⟨u1, u2, u3, u4, u5, u6⟩ := hhigh
    unfold Spec.statisticCombinationCount
    refine Nat.mul_le_mul (Nat.mul_le_mul (Nat.mul_le_mul (Nat.mul_le_mul
      (Nat.mul_le_mul ?_ ?_) ?_) ?_) ?_) ?_ <;> omega
  have hnum : Spec.seedSpaceSize c1 * Spec.frameWindowSize c1 *
      Spec.statisticCombinationCount c1 ≤ Spec.seedSpaceSize c2 * Spec.frameWindowSize c2 *
      Spec.statisticCombinationCount c2 := by
    rw [hseed, hframes]
    exact Nat.mul_le_mul_left _ hiv
  have hnd : c1.natureDivisor = c2.natureDivisor := by
    unfold Criteria.natureDivisor
    rw [hnature]
  rw [Criteria.ExpectedNumberOfResults_eq hinv1, Criteria.ExpectedNumberOfResults_eq hinv2,
    Nat.mod_eq_of_lt hfit, Nat.mod_eq_of_lt (lt_of_le_of_lt hnum hfit), hnd, htype]
  exact Nat.div_le_div_right hnum

/-- C5 at `sampleCriteria` against `sampleCriteriaWide`: the estimate grows from
42 to 715. -/
theorem expectedNumberOfResults_mono_space_witness :
    sampleCriteria.Invariants ∧ sampleCriteriaWide.Invariants ∧
      sampleCriteria.ExpectedNumberOfResults = 42 ∧
      sampleCriteriaWide.ExpectedNumberOfResults = 715 ∧
      sampleCriteria.ExpectedNumberOfResults ≤ sampleCriteriaWide.ExpectedNumberOfResults :=
  ⟨by decide, by decide, by decide, by decide,
    expectedNumberOfResults_mono_space sampleCriteria sampleCriteriaWide (by decide)
      (by decide) rfl rfl rfl rfl rfl (by decide) (by decide) (by decide) (by decide)
      (by decide) (by decide) (by decide)⟩

/-- C6 at `sampleCriteria` against `sampleCriteriaLooseIVs`: the estimate grows
from 42 to 10986. -/
theorem expectedNumberOfResults_mono_ivs_witness :
    sampleCriteria.Invariants ∧ sampleCriteriaLooseIVs.Invariants ∧
      sampleCriteria.ExpectedNumberOfResults = 42 ∧
      sampleCriteriaLooseIVs.ExpectedNumberOfResults = 10986 ∧
      sampleCriteria.ExpectedNumberOfResults ≤
        sampleCriteriaLooseIVs.ExpectedNumberOfResults :=
  ⟨by decide, by decide, by decide, by decide,
    expectedNumberOfResults_mono_ivs sampleCriteria sampleCriteriaLooseIVs (by decide)
      (by decide) rfl rfl rfl rfl rfl rfl rfl rfl rfl rfl rfl rfl rfl (by decide) (by decide)
      (by decide)⟩

/-- C4, evaluated on the code: for `natureUnknownCriteria` (nature `UNKNOWN`, which
`CheckNature` accepts for every frame nature) the numerator is
`1 * 25 * 32^6` and the hidden-power divisor is 1, so the claimed quotient
without the factor 25 is 25, but `natureDivisor` is 25 and
`ExpectedNumberOfResults` returns 1. -/
theorem natureUnknown_divides_by_25 :
    (∀ n, FrameChecker.CheckNature natureUnknownCriteria n = true) ∧
      mul64 (mul64 natureUnknownCriteria.numSeeds natureUnknownCriteria.numFrames)
          natureUnknownCriteria.numIVs /
        mul64 (32 * 32 * 32 * 32 * 32 * 32) natureUnknownCriteria.hpDivisor = 25 ∧
      natureUnknownCriteria.natureDivisor = 25 ∧
      natureUnknownCriteria.ExpectedNumberOfResults = 1 := by
  refine ⟨fun n => ?_, by decide, by decide, by decide⟩
  simp [FrameChecker.CheckNature, natureUnknownCriteria]

/-! ## FrameChecker: claims -/

/-- C2: for every Criteria and every frame, `FrameChecker::operator()` accepts the
frame if and only if `CheckNature(frame.nature)`, `CheckIVs(frame.ivs)` and
`CheckHiddenPower(frame.ivs)` all pass; failing any one of the three rejects
the frame whatever the other two return. -/
theorem call_iff_all_checks (d : DerivedStats) (c : Criteria) (frame : WonderCardFrame) :
    (FrameChecker.call d c frame = true ↔
      FrameChecker.CheckNature c frame.nature = true ∧
        FrameChecker.CheckIVs c frame.ivs = true ∧
        FrameChecker.CheckHiddenPower d c frame.ivs = true) ∧
      (FrameChecker.CheckNature c frame.nature = false ∨
          FrameChecker.CheckIVs c frame.ivs = false ∨
          FrameChecker.CheckHiddenPower d c frame.ivs = false →
        FrameChecker.call d c frame = false) := by
  unfold FrameChecker.call
  constructor
  · rw [Bool.and_eq_true, Bool.and_eq_true, and_assoc]
  · rintro (h | h | h) <;> simp [h]

/-- C7: for every Criteria with a specific nature N (neither `Nature::ANY` nor
`Nature::UNKNOWN`) and every frame: if `frame.nature != N` the frame is
rejected by `operator()` whatever its IVs and the other criteria fields; if
`frame.nature = N` then `CheckNature` accepts it and `operator()` accepts
exactly when `CheckIVs` and `CheckHiddenPower` accept. -/
theorem specific_nature_filter (d : DerivedStats) (c : Criteria) (frame : WonderCardFrame)
    (hany : c.nature ≠ Nature.ANY) (hunknown : c.nature ≠ Nature.UNKNOWN) :
    (frame.nature ≠ c.nature → FrameChecker.call d c frame = false) ∧
      (frame.nature = c.nature →
        FrameChecker.CheckNature c frame.nature = true ∧
          (FrameChecker.call d c frame = true ↔
            FrameChecker.CheckIVs c frame.ivs = true ∧
              FrameChecker.CheckHiddenPower d c frame.ivs = true)) := by
  constructor
  · intro hne
    have hn : FrameChecker.CheckNature c frame.nature = false := by
      simp [FrameChecker.CheckNature, hany, hunknown, Ne.symm hne]
    simp [FrameChecker.call, hn]
  · intro heq
    have hn : FrameChecker.CheckNature c frame.nature = true := by
      simp [FrameChecker.CheckNature, heq]
    refine ⟨hn, ?_⟩
    simp [FrameChecker.call, hn]

/-- C7 at `sampleCriteria` (nature 3): the frame of nature 7 is rejected, the
frame of nature 3 with the same statistics is accepted. -/
theorem specific_nature_filter_witness :
    FrameChecker.call sampleDerived sampleCriteria sampleFrameOtherNature = false ∧
      FrameChecker.call sampleDerived sampleCriteria sampleFrame = true :=
  ⟨(specific_nature_filter sampleDerived sampleCriteria sampleFrameOtherNature
      (by decide) (by decide)).1 (by decide),
    ((specific_nature_filter sampleDerived sampleCriteria sampleFrame
      (by decide) (by decide)).2 (by decide)).2.2 ⟨by decide, by decide⟩⟩

/-- C8: for every Criteria whose nature is a wildcard (`Nature::ANY` or
`Nature::UNKNOWN`) and every frame nature `n`, `CheckNature(n)` returns true;
hence two frames with identical IVs but different natures receive the same
verdict from `operator()`. -/
theorem wildcard_nature_passes (d : DerivedStats) (c : Criteria)
    (hwild : c.nature = Nature.ANY ∨ c.nature = Nature.UNKNOWN) :
    (∀ n : Nature, FrameChecker.CheckNature c n = true) ∧
      (∀ f1 f2 : WonderCardFrame, f1.ivs = f2.ivs →
        FrameChecker.call d c f1 = FrameChecker.call d c f2) := by
  have hn : ∀ n : Nature, FrameChecker.CheckNature c n = true := by
    intro n
    rcases hwild with h | h <;> simp [FrameChecker.CheckNature, h]
  refine ⟨hn, ?_⟩
  intro f1 f2 hivs
  unfold FrameChecker.call
  rw [hn f1.nature, hn f2.nature, hivs]

/-- C8 at `natureUnknownCriteria`: frames of nature 3 and of nature 7 with the same
statistics are both accepted. -/
theorem wildcard_nature_passes_witness :
    FrameChecker.CheckNature natureUnknownCriteria (Nature.specific 7) = true ∧
      FrameChecker.call sampleDerived natureUnknownCriteria sampleFrame =
        FrameChecker.call sampleDerived natureUnknownCriteria sampleFrameOtherNature ∧
      FrameChecker.call sampleDerived natureUnknownCriteria sampleFrame = true :=
  ⟨(wildcard_nature_passes sampleDerived natureUnknownCriteria (Or.inr rfl)).1 _,
    (wildcard_nature_passes sampleDerived natureUnknownCriteria (Or.inr rfl)).2 _ _ rfl,
    by decide⟩

theorem betterThanOrEqual_iff (v o : IVs) : v.betterThanOrEqual o = true ↔ o.Le v := by
  simp [IVs.betterThanOrEqual, IVs.Le, and_assoc]

theorem worseThanOrEqual_iff (v o : IVs) : v.worseThanOrEqual o = true ↔ v.Le o := by
  simp [IVs.worseThanOrEqual, IVs.Le, and_assoc]

/-- C9: for every Criteria and every IV vector `v`, `CheckIVs(v)` returns true if
and only if `v` is componentwise at least `minIVs` and, when
`shouldCheckMaxIVs` is set, componentwise at most `maxIVs`; when
`shouldCheckMaxIVs` is not set, the value of `maxIVs` has no influence on the
result. -/
theorem checkIVs_iff (c : Criteria) (v : IVs) :
    (FrameChecker.CheckIVs c v = true ↔
      c.minIVs.Le v ∧ (c.shouldCheckMaxIVs = true → v.Le c.maxIVs)) ∧
      (c.shouldCheckMaxIVs = false → ∀ other : IVs,
        FrameChecker.CheckIVs { c with maxIVs := other } v = FrameChecker.CheckIVs c v) := by
  constructor
  · unfold FrameChecker.CheckIVs
    rw [Bool.and_eq_true, Bool.or_eq_true, betterThanOrEqual_iff, worseThanOrEqual_iff]
    cases c.shouldCheckMaxIVs <;> simp
  · intro hs other
    simp [FrameChecker.CheckIVs, hs]

/-- C10: for every Criteria whose hiddenType is a specific element T (neither
`Element::UNKNOWN` nor `Element::ANY`) and every IV vector `v` with
`v.HiddenType() != T`, `CheckHiddenPower(v)` returns false, and therefore
`operator()` rejects every frame carrying `v`, whatever `v.HiddenPower()` is. -/
theorem hiddenType_mismatch_rejects (d : DerivedStats) (c : Criteria) (v : IVs)
    (hunknown : c.hiddenType ≠ Element.UNKNOWN) (hany : c.hiddenType ≠ Element.ANY)
    (hmismatch : d.HiddenType v ≠ c.hiddenType) :
    FrameChecker.CheckHiddenPower d c v = false ∧
      ∀ frame : WonderCardFrame, frame.ivs = v → FrameChecker.call d c frame = false := by
  have hp : FrameChecker.CheckHiddenPower d c v = false := by
    unfold FrameChecker.CheckHiddenPower
    rw [if_neg hunknown, if_neg]
    rintro (h | h)
    · exact hany h
    · exact hmismatch h.symm
  refine ⟨hp, ?_⟩
  intro frame hv
  unfold FrameChecker.call
  rw [hv, hp, Bool.and_false]

/-- C10 at `sampleCriteria` (hidden type 1, threshold 60): the statistics of
`sampleFrameOtherType` have derived type 0 and derived power 60, which meets
the threshold, and the frame is rejected although its nature and statistics
pass. -/
theorem hiddenType_mismatch_rejects_witness :
    sampleDerived.HiddenPower sampleFrameOtherType.ivs ≥ sampleCriteria.minHiddenPower ∧
      FrameChecker.CheckNature sampleCriteria sampleFrameOtherType.nature = true ∧
      FrameChecker.CheckIVs sampleCriteria sampleFrameOtherType.ivs = true ∧
      FrameChecker.CheckHiddenPower sampleDerived sampleCriteria sampleFrameOtherType.ivs
        = false ∧
      FrameChecker.call sampleDerived sampleCriteria sampleFrameOtherType = false :=
  ⟨by decide, by decide, by decide,
    (hiddenType_mismatch_rejects sampleDerived sampleCriteria sampleFrameOtherType.ivs
      (by decide) (by decide) (by decide)).1,
    (hiddenType_mismatch_rejects sampleDerived sampleCriteria sampleFrameOtherType.ivs
      (by decide) (by decide) (by decide)).2 sampleFrameOtherType rfl⟩

/-- C11: for every Criteria and every IV vector `v`: if hiddenType is
`Element::UNKNOWN`, `CheckHiddenPower(v)` returns true whatever
`minHiddenPower` and `v` are; if hiddenType is `Element::ANY`, or is a specific
element equal to `v.HiddenType()`, `CheckHiddenPower(v)` returns true if and
only if `v.HiddenPower() >= minHiddenPower`. -/
theorem checkHiddenPower_cases (d : DerivedStats) (c : Criteria) (v : IVs) :
    (c.hiddenType = Element.UNKNOWN → FrameChecker.CheckHiddenPower d c v = true) ∧
      (c.hiddenType = Element.ANY →
        (FrameChecker.CheckHiddenPower d c v = true ↔
          d.HiddenPower v ≥ c.minHiddenPower)) ∧
      (c.hiddenType ≠ Element.UNKNOWN → c.hiddenType ≠ Element.ANY →
        c.hiddenType = d.HiddenType v →
        (FrameChecker.CheckHiddenPower d c v = true ↔
          d.HiddenPower v ≥ c.minHiddenPower)) := by
  refine ⟨?_, ?_, ?_⟩
  · intro h
    simp [FrameChecker.CheckHiddenPower, h]
  · intro h
    simp [FrameChecker.CheckHiddenPower, h]
  · intro hu _ h
    unfold FrameChecker.CheckHiddenPower
    rw [if_neg hu, if_pos (Or.inr h), decide_eq_true_iff]

/-- C12: the minimum-bound check is upward closed: for every Criteria with
`shouldCheckMaxIVs` false and all IV vectors `A`, `B` with `A` componentwise
at least `B`, if `CheckIVs(B)` returns true then `CheckIVs(A)` returns true. -/
theorem checkIVs_upward_closed (c : Criteria) (A B : IVs)
    (hnomax : c.shouldCheckMaxIVs = false) (hge : B.Le A)
    (hB : FrameChecker.CheckIVs c B = true) : FrameChecker.CheckIVs c A = true := by
  unfold FrameChecker.CheckIVs at *
  rw [hnomax] at hB ⊢
  simp only [Bool.not_false, Bool.true_or, Bool.and_true] at hB ⊢
  rw [betterThanOrEqual_iff] at hB ⊢
  obtain ⟨b1, b2, b3, b4, b5, b6⟩ := hB
  obtain ⟨g1, g2, g3, g4, g5, g6⟩ := hge
  exact ⟨le_trans b1 g1, le_trans b2 g2, le_trans b3 g3, le_trans b4 g4, le_trans b5 g5,
    le_trans b6 g6⟩

/-- C12 at `sampleCriteriaLooseIVs` (minimum `(28, 0, 28, 0, 28, 28)`, no maximum):
the vector `(28, 5, 29, 0, 30, 28)` passes, so the larger
`(31, 5, 29, 7, 30, 31)` passes. -/
theorem checkIVs_upward_closed_witness :
    FrameChecker.CheckIVs sampleCriteriaLooseIVs ⟨28, 5, 29, 0, 30, 28⟩ = true ∧
      FrameChecker.CheckIVs sampleCriteriaLooseIVs ⟨31, 5, 29, 7, 30, 31⟩ = true :=
  ⟨by decide,
    checkIVs_upward_closed sampleCriteriaLooseIVs ⟨31, 5, 29, 7, 30, 31⟩
      ⟨28, 5, 29, 0, 30, 28⟩ rfl (by decide) (by decide)⟩

/-- C19: relaxing the Criteria never turns an accepted frame into a rejected one:
if `FrameChecker(c)` accepts `f`, so does `FrameChecker(c')` when `c'` is `c`
with nature replaced by `Nature::ANY`, with a specific hiddenType replaced by
`Element::ANY`, with any hiddenType replaced by `Element::UNKNOWN`, with
`shouldCheckMaxIVs` cleared, or with a lower `minHiddenPower`. -/
theorem relaxing_keeps_accepted (d : DerivedStats) (c : Criteria) (f : WonderCardFrame)
    (hacc : FrameChecker.call d c f = true) :
    FrameChecker.call d { c with nature := Nature.ANY } f = true ∧
      (c.hiddenType ≠ Element.UNKNOWN → c.hiddenType ≠ Element.ANY →
        FrameChecker.call d { c with hiddenType := Element.ANY } f = true) ∧
      FrameChecker.call d { c with hiddenType := Element.UNKNOWN } f = true ∧
      FrameChecker.call d { c with shouldCheckMaxIVs := false } f = true ∧
      (∀ p : Nat, p ≤ c.minHiddenPower →
        FrameChecker.call d { c with minHiddenPower := p } f = true) := by
  unfold FrameChecker.call at hacc
  rw [Bool.and_eq_true, Bool.and_eq_true] at hacc
  obtain ⟨⟨hn, hi⟩, hh⟩ := hacc
  have hpower : c.hiddenType ≠ Element.UNKNOWN →
      d.HiddenPower f.ivs ≥ c.minHiddenPower := by
    intro hu
    unfold FrameChecker.CheckHiddenPower at hh
    rw [if_neg hu] at hh
    split at hh
    · exact of_decide_eq_true hh
    · exact absurd hh (by decide)
  refine ⟨?_, ?_, ?_, ?_, ?_⟩
  · have h : FrameChecker.CheckNature { c with nature := Nature.ANY } f.nature = true := by
      simp [FrameChecker.CheckNature]
    unfold FrameChecker.call
    rw [Bool.and_eq_true, Bool.and_eq_true]
    exact ⟨⟨h, hi⟩, hh⟩
  · intro hu _
    have h : FrameChecker.CheckHiddenPower d { c with hiddenType := Element.ANY } f.ivs
        = true := by
      simp [FrameChecker.CheckHiddenPower, hpower hu]
    unfold FrameChecker.call
    rw [Bool.and_eq_true, Bool.and_eq_true]
    exact ⟨⟨hn, hi⟩, h⟩
  · have h : FrameChecker.CheckHiddenPower d { c with hiddenType := Element.UNKNOWN } f.ivs
        = true := by
      simp [FrameChecker.CheckHiddenPower]
    unfold FrameChecker.call
    rw [Bool.and_eq_true, Bool.and_eq_true]
    exact ⟨⟨hn, hi⟩, h⟩
  · have h : FrameChecker.CheckIVs { c with shouldCheckMaxIVs := false } f.ivs = true := by
      unfold FrameChecker.CheckIVs at hi ⊢
      rw [Bool.and_eq_true] at hi
      simp [hi.1]
    unfold FrameChecker.call
    rw [Bool.and_eq_true, Bool.and_eq_true]
    exact ⟨⟨hn, h⟩, hh⟩
  · intro p hp
    have h : FrameChecker.CheckHiddenPower d { c with minHiddenPower := p } f.ivs
        = true := by
      by_cases hu : c.hiddenType = Element.UNKNOWN
      · simp [FrameChecker.CheckHiddenPower, hu]
      · have hge := hpower hu
        unfold FrameChecker.CheckHiddenPower at hh ⊢
        rw [if_neg hu] at hh
        show (if c.hiddenType = Element.UNKNOWN then true
          else if c.hiddenType = Element.ANY ∨ c.hiddenType = d.HiddenType f.ivs then
            decide (d.HiddenPower f.ivs ≥ p) else false) = true
        rw [if_neg hu]
        split
        · exact decide_eq_true (le_trans hp hge)
        · next ht =>
          rw [if_neg ht] at hh
          exact hh
    unfold FrameChecker.call
    rw [Bool.and_eq_true, Bool.and_eq_true]
    exact ⟨⟨hn, hi⟩, h⟩

/-- C19 at `sampleCriteria` and `sampleFrame`: the frame is accepted, and stays
accepted when the nature is replaced by `ANY` or the threshold is lowered
from 60 to 40. -/
theorem relaxing_keeps_accepted_witness :
    FrameChecker.call sampleDerived sampleCriteria sampleFrame = true ∧
      FrameChecker.call sampleDerived { sampleCriteria with nature := Nature.ANY }
        sampleFrame = true ∧
      FrameChecker.call sampleDerived { sampleCriteria with minHiddenPower := 40 }
        sampleFrame = true :=
  ⟨by decide,
    (relaxing_keeps_accepted sampleDerived sampleCriteria sampleFrame (by decide)).1,
    (relaxing_keeps_accepted sampleDerived sampleCriteria sampleFrame
      (by decide)).2.2.2.2 40 (by decide)⟩

/-! ## The estimator: overflow, degenerate inputs and bounds -/

theorem mul64_zero_left (a : Nat) : mul64 0 a = 0 := by
  simp [mul64]

theorem mul64_zero_right (a : Nat) : mul64 a 0 = 0 := by
  simp [mul64]

theorem natureDivisor_pos (c : Criteria) : 0 < c.natureDivisor := by
  unfold Criteria.natureDivisor
  split <;> omega

theorem hiddenPowerDivisor_pos (e : Element) : 0 < Spec.hiddenPowerDivisor e := by
  cases e <;> simp [Spec.hiddenPowerDivisor]

theorem divisor_eq_exact (c : Criteria) :
    c.divisor = 32 ^ 6 * c.natureDivisor * Spec.hiddenPowerDivisor c.hiddenType :=
  Criteria.divisor_exact c

theorem divisor_pos (c : Criteria) : 0 < c.divisor := by
  rw [divisor_eq_exact]
  exact Nat.mul_pos (Nat.mul_pos (by norm_num) (natureDivisor_pos c))
    (hiddenPowerDivisor_pos _)

/-- Two Criteria with the same numerator: the one with the larger divisor has the
smaller estimate. -/
theorem expected_le_of_divisor_le {c1 c2 : Criteria}
    (hnum : mul64 (mul64 c1.numSeeds c1.numFrames) c1.numIVs =
      mul64 (mul64 c2.numSeeds c2.numFrames) c2.numIVs)
    (hdiv : c2.divisor ≤ c1.divisor) :
    c1.ExpectedNumberOfResults ≤ c2.ExpectedNumberOfResults := by
  show mul64 (mul64 c1.numSeeds c1.numFrames) c1.numIVs / c1.divisor ≤
    mul64 (mul64 c2.numSeeds c2.numFrames) c2.numIVs / c2.divisor
  rw [hnum]
  exact Nat.div_le_div_left hdiv (divisor_pos c2)

/-- C14: the estimator does not guard against overflow: some Criteria that
satisfies every invariant (ordered ranges, non-empty control-input set, IV
components in `0..31`) has an exact numerator of at least `2^64`, the 64-bit
product `numSeeds * numFrames * numIVs` differs from it, and
`ExpectedNumberOfResults` differs from the exact quotient. Here
`oneDayCriteria`: exact numerator `707788800000 * 2^30`, exact quotient
707788800000, returned 3414163456. -/
theorem overflow_not_guarded :
    ∃ c : Criteria, c.Invariants ∧ c.buttonPresses ≠ [] ∧
      2 ^ 64 ≤ Spec.seedSpaceSize c * Spec.frameWindowSize c *
        Spec.statisticCombinationCount c ∧
      mul64 (mul64 c.numSeeds c.numFrames) c.numIVs ≠
        Spec.seedSpaceSize c * Spec.frameWindowSize c * Spec.statisticCombinationCount c ∧
      Spec.expectedNumberOfResults c = 707788800000 ∧
      c.ExpectedNumberOfResults = 3414163456 ∧
      c.ExpectedNumberOfResults ≠ Spec.expectedNumberOfResults c :=
  ⟨oneDayCriteria, by decide, by decide, by decide, by decide, by decide, by decide,
    by decide⟩

/-- C16: for every Criteria whose `buttonPresses` is empty,
`ExpectedNumberOfResults` returns 0, whatever the other fields are (invalid
or inverted ranges included). -/
theorem no_buttons_gives_zero (c : Criteria) (hempty : c.buttonPresses = []) :
    c.ExpectedNumberOfResults = 0 := by
  have hk : c.keyCombos = 0 := by
    unfold Criteria.keyCombos
    rw [hempty]
    rfl
  have hs : c.numSeeds = 0 := by
    unfold Criteria.numSeeds
    rw [hk, mul64_zero_right, mul64_zero_left, mul64_zero_left, mul64_zero_left]
  unfold Criteria.ExpectedNumberOfResults
  rw [hs, mul64_zero_left, mul64_zero_left, Nat.zero_div]

/-- C16 at `noButtonsCriteria`, whose time, timer0 and frame ranges are inverted. -/
theorem no_buttons_gives_zero_witness :
    noButtonsCriteria.buttonPresses = [] ∧ ¬ noButtonsCriteria.Invariants ∧
      noButtonsCriteria.ExpectedNumberOfResults = 0 :=
  ⟨rfl, by decide, no_buttons_gives_zero noButtonsCriteria rfl⟩

/-- C15: when no maximum-statistic bound is supplied the estimator uses the ceiling
31 in each of the six dimensions: for every Criteria `c` with
`shouldCheckMaxIVs = false`, the estimate of `c` equals the estimate of `c`
with `shouldCheckMaxIVs = true` and `maxIVs = (31, 31, 31, 31, 31, 31)`;
`IVs(0x7FFF7FFF)` decodes to 31 in hp, at, df, sa, sd and sp; and the stored
`maxIVs` field of `c` is ignored. -/
theorem no_max_bound_is_ceiling (c : Criteria) (hnomax : c.shouldCheckMaxIVs = false) :
    c.ExpectedNumberOfResults =
        Criteria.ExpectedNumberOfResults
          { c with shouldCheckMaxIVs := true, maxIVs := ⟨31, 31, 31, 31, 31, 31⟩ } ∧
      IVs.ofWord 0x7FFF7FFF = ⟨31, 31, 31, 31, 31, 31⟩ ∧
      ∀ other : IVs,
        Criteria.ExpectedNumberOfResults { c with maxIVs := other } =
          c.ExpectedNumberOfResults := by
  have hword : IVs.ofWord 0x7FFF7FFF = ⟨31, 31, 31, 31, 31, 31⟩ := by decide
  have hlocal : c.localMaxIVs = ⟨31, 31, 31, 31, 31, 31⟩ := by
    unfold Criteria.localMaxIVs
    rw [hnomax, ← hword]
    rfl
  refine ⟨?_, hword, ?_⟩
  · have h2 : Criteria.localMaxIVs
        { c with shouldCheckMaxIVs := true, maxIVs := ⟨31, 31, 31, 31, 31, 31⟩ } =
        ⟨31, 31, 31, 31, 31, 31⟩ := rfl
    have hiv : c.numIVs = Criteria.numIVs
        { c with shouldCheckMaxIVs := true, maxIVs := ⟨31, 31, 31, 31, 31, 31⟩ } := by
      unfold Criteria.numIVs
      rw [hlocal, h2]
    unfold Criteria.ExpectedNumberOfResults
    rw [hiv]
    rfl
  · intro other
    have h2 : Criteria.localMaxIVs { c with maxIVs := other } = c.localMaxIVs := by
      unfold Criteria.localMaxIVs
      show (if c.shouldCheckMaxIVs = true then other else IVs.ofWord 0x7FFF7FFF) = _
      rw [hnomax]
      rfl
    have hiv : Criteria.numIVs { c with maxIVs := other } = c.numIVs := by
      unfold Criteria.numIVs
      rw [h2]
    unfold Criteria.ExpectedNumberOfResults
    rw [hiv]
    rfl

/-- C15 at `sampleCriteriaLooseIVs`, which supplies no maximum: the estimate is
10986 with and without the explicit all-31 maximum. -/
theorem no_max_bound_is_ceiling_witness :
    sampleCriteriaLooseIVs.shouldCheckMaxIVs = false ∧
      sampleCriteriaLooseIVs.ExpectedNumberOfResults = 10986 ∧
      Criteria.ExpectedNumberOfResults
        { sampleCriteriaLooseIVs with
          shouldCheckMaxIVs := true, maxIVs := ⟨31, 31, 31, 31, 31, 31⟩ } = 10986 :=
  ⟨rfl, by decide,
    (no_max_bound_is_ceiling sampleCriteriaLooseIVs rfl).1.symm.trans (by decide)⟩

/-- C17: tightening the acceptance filter never raises the estimate, with no
precondition on ranges or overflow: for every Criteria `c`, the estimate with
a specific hiddenType is at most the one with `ANY`, which is at most the one
with `UNKNOWN`; and the estimate with any nature other than `ANY` is at most
the one with nature `ANY`, all other fields equal. -/
theorem tightening_never_raises (c : Criteria) (e : Nat) :
    Criteria.ExpectedNumberOfResults { c with hiddenType := Element.specific e } ≤
        Criteria.ExpectedNumberOfResults { c with hiddenType := Element.ANY } ∧
      Criteria.ExpectedNumberOfResults { c with hiddenType := Element.ANY } ≤
        Criteria.ExpectedNumberOfResults { c with hiddenType := Element.UNKNOWN } ∧
      ∀ n : Nature, n ≠ Nature.ANY →
        Criteria.ExpectedNumberOfResults { c with nature := n } ≤
          Criteria.ExpectedNumberOfResults { c with nature := Nature.ANY } := by
  refine ⟨?_, ?_, ?_⟩
  · refine expected_le_of_divisor_le ?_ ?_
    · rfl
    · rw [divisor_eq_exact, divisor_eq_exact]
      exact Nat.mul_le_mul (le_of_eq rfl) (by simp [Spec.hiddenPowerDivisor])
  · refine expected_le_of_divisor_le ?_ ?_
    · rfl
    · rw [divisor_eq_exact, divisor_eq_exact]
      exact Nat.mul_le_mul (le_of_eq rfl) (by simp [Spec.hiddenPowerDivisor])
  · intro n _
    refine expected_le_of_divisor_le ?_ ?_
    · rfl
    · rw [divisor_eq_exact, divisor_eq_exact]
      have h1 : Criteria.natureDivisor { c with nature := Nature.ANY } = 1 := by
        simp [Criteria.natureDivisor]
      rw [h1]
      exact Nat.mul_le_mul (Nat.mul_le_mul (le_refl _) (natureDivisor_pos _)) (le_of_eq rfl)

/-- C18: the estimate never exceeds the number of frames the search examines: for
every Criteria that satisfies the invariants and whose numerator product is
below `2^64`, `ExpectedNumberOfResults <= seedSpaceSize * frameWindowSize`. -/
theorem expected_le_examined (c : Criteria) (hinv : c.Invariants)
    (hfit : Spec.seedSpaceSize c * Spec.frameWindowSize c *
      Spec.statisticCombinationCount c < 2 ^ 64) :
    c.ExpectedNumberOfResults ≤ Spec.seedSpaceSize c * Spec.frameWindowSize c := by
  rw [Criteria.ExpectedNumberOfResults_eq hinv, Nat.mod_eq_of_lt hfit]
  have hd : 32 ^ 6 ≤ 32 ^ 6 * c.natureDivisor * Spec.hiddenPowerDivisor c.hiddenType := by
    calc 32 ^ 6 = 32 ^ 6 * 1 * 1 := by norm_num
      _ ≤ 32 ^ 6 * c.natureDivisor * Spec.hiddenPowerDivisor c.hiddenType :=
        Nat.mul_le_mul (Nat.mul_le_mul (le_refl _) (natureDivisor_pos c))
          (hiddenPowerDivisor_pos _)
  calc Spec.seedSpaceSize c * Spec.frameWindowSize c * Spec.statisticCombinationCount c /
        (32 ^ 6 * c.natureDivisor * Spec.hiddenPowerDivisor c.hiddenType)
      ≤ Spec.seedSpaceSize c * Spec.frameWindowSize c *
          Spec.statisticCombinationCount c / 32 ^ 6 :=
        Nat.div_le_div_left hd (by norm_num)
    _ ≤ Spec.seedSpaceSize c * Spec.frameWindowSize c * 32 ^ 6 / 32 ^ 6 :=
        Nat.div_le_div_right
          (Nat.mul_le_mul_left _ (Criteria.statisticCombinationCount_le hinv))
    _ = Spec.seedSpaceSize c * Spec.frameWindowSize c :=
        Nat.mul_div_cancel _ (by norm_num)

/-- C18 at `sampleCriteria`: the estimate 42 against 7200072 seeds times 100000
frames. -/
theorem expected_le_examined_witness :
    sampleCriteria.Invariants ∧
      Spec.seedSpaceSize sampleCriteria * Spec.frameWindowSize sampleCriteria
        = 720007200000 ∧
      sampleCriteria.ExpectedNumberOfResults ≤ 720007200000 :=
  ⟨by decide, by decide,
    le_trans (expected_le_examined sampleCriteria (by decide) (by decide)) (by decide)⟩

/-- C20: the estimator's division is always defined: for every Criteria, valid or
not, the divisor of the return expression is `32^6 * natureDivisor * hpDivisor`
without wrap-around, is one of `2^30 * {1, 25, 40, 640, 1000, 16000}`, hence
non-zero and below `2^64`; the constant `32*32*32*32*32*32` is `2^30`, which
fits a 32-bit signed int. -/
theorem divisor_always_defined (c : Criteria) :
    c.ExpectedNumberOfResults =
        mul64 (mul64 c.numSeeds c.numFrames) c.numIVs / c.divisor ∧
      c.divisor = 32 ^ 6 * c.natureDivisor * c.hpDivisor ∧
      (c.divisor = 2 ^ 30 * 1 ∨ c.divisor = 2 ^ 30 * 25 ∨ c.divisor = 2 ^ 30 * 40 ∨
        c.divisor = 2 ^ 30 * 640 ∨ c.divisor = 2 ^ 30 * 1000 ∨
        c.divisor = 2 ^ 30 * 16000) ∧
      c.divisor ≠ 0 ∧ c.divisor < 2 ^ 64 ∧
      32 * 32 * 32 * 32 * 32 * 32 = 2 ^ 30 ∧ 2 ^ 30 < 2 ^ 31 := by
  have hn : c.natureDivisor = 1 ∨ c.natureDivisor = 25 := by
    unfold Criteria.natureDivisor
    split
    · exact Or.inr rfl
    · exact Or.inl rfl
  have hh : Spec.hiddenPowerDivisor c.hiddenType = 1 ∨
      Spec.hiddenPowerDivisor c.hiddenType = 40 ∨
      Spec.hiddenPowerDivisor c.hiddenType = 640 := by
    cases c.hiddenType <;> simp [Spec.hiddenPowerDivisor]
  have hset : c.divisor = 2 ^ 30 * 1 ∨ c.divisor = 2 ^ 30 * 25 ∨ c.divisor = 2 ^ 30 * 40 ∨
      c.divisor = 2 ^ 30 * 640 ∨ c.divisor = 2 ^ 30 * 1000 ∨
      c.divisor = 2 ^ 30 * 16000 := by
    rw [divisor_eq_exact]
    rcases hn with h | h <;> rcases hh with k | k | k <;> rw [h, k] <;> norm_num
  refine ⟨rfl, ?_, hset, Nat.pos_iff_ne_zero.mp (divisor_pos c), ?_, by norm_num,
    by norm_num⟩
  · rw [divisor_eq_exact, Criteria.hpDivisor_eq]
  · rcases hset with h | h | h | h | h | h <;> rw [h] <;> norm_num

/-! ## The search: claims -/

/-- C13: for every Criteria, result callback and progress callback, `Search`
performs no filtering of its own: it hands the traversal engine the seed
enumerator built from the Criteria's seed-space parameters, a generator
factory carrying `canBeShiny`, `tid` and `sid` of that Criteria, the frame
range `[minFrame, maxFrame]`, the predicate `FrameChecker(criteria)` and the
two callbacks unchanged; so, for an engine meeting its contract, the result
callback is invoked with a frame exactly when the frame belongs to an
enumerated seed, its index lies in `[minFrame, maxFrame]`, and
`FrameChecker(criteria)` accepts it. -/
theorem search_is_composition (d : DerivedStats) (criteria : Criteria) :
    (∀ (R P Out : Type)
        (searcher : HashedSeedGenerator → (HashedSeed → WonderCardFrameGenerator) →
          FrameRange → (WonderCardFrame → Bool) → R → P → Out)
        (resultHandler : R) (progressHandler : P),
        WonderCardSeedSearcher.Search searcher d criteria resultHandler progressHandler =
          searcher
            { version := criteria.version
              macAddressLow := criteria.macAddressLow
              macAddressHigh := criteria.macAddressHigh
              timer0Low := criteria.timer0Low, timer0High := criteria.timer0High
              vcountLow := criteria.vcountLow, vcountHigh := criteria.vcountHigh
              vframeLow := criteria.vframeLow, vframeHigh := criteria.vframeHigh
              fromTime := criteria.fromTime, toTime := criteria.toTime
              buttonPresses := criteria.buttonPresses }
            (fun seed =>
              { seed := seed, canBeShiny := criteria.canBeShiny
                tid := criteria.tid, sid := criteria.sid })
            { min := criteria.minFrame, max := criteria.maxFrame }
            (fun frame =>
              FrameChecker.CheckNature criteria frame.nature &&
                FrameChecker.CheckIVs criteria frame.ivs &&
                FrameChecker.CheckHiddenPower d criteria frame.ivs)
            resultHandler progressHandler) ∧
      (∀ (ext : Collaborators) (R P : Type) (resultHandler : R) (progressHandler : P)
        (call : ResultCall),
        call ∈ WonderCardSeedSearcher.Search (contractSearcher ext) d criteria
            resultHandler progressHandler ↔
          call.seed ∈ ext.seeds
              { version := criteria.version
                macAddressLow := criteria.macAddressLow
                macAddressHigh := criteria.macAddressHigh
                timer0Low := criteria.timer0Low, timer0High := criteria.timer0High
                vcountLow := criteria.vcountLow, vcountHigh := criteria.vcountHigh
                vframeLow := criteria.vframeLow, vframeHigh := criteria.vframeHigh
                fromTime := criteria.fromTime, toTime := criteria.toTime
                buttonPresses := criteria.buttonPresses } ∧
            criteria.minFrame ≤ call.index ∧ call.index ≤ criteria.maxFrame ∧
            call.frame =
              ext.frameAt
                { seed := call.seed, canBeShiny := criteria.canBeShiny
                  tid := criteria.tid, sid := criteria.sid }
                call.index ∧
            FrameChecker.call d criteria call.frame = true) := by
  refine ⟨fun _ _ _ _ _ _ => rfl, ?_⟩
  intro ext R P resultHandler progressHandler call
  unfold WonderCardSeedSearcher.Search contractSearcher
  simp only [List.mem_flatMap, List.mem_filterMap, List.mem_map, List.mem_range]
  constructor
  · rintro ⟨seed, hseed, index, ⟨k, hk, rfl⟩, hcall⟩
    split at hcall
    · next hc =>
      have e := Option.some.inj hcall
      subst e
      exact ⟨hseed, by simp, by simp; omega, rfl, hc⟩
    · exact absurd hcall (by simp)
  · rintro ⟨hseed, hlo, hhi, hframe, hacc⟩
    refine ⟨call.seed, hseed, call.index, ⟨call.index - criteria.minFrame, ?_, ?_⟩, ?_⟩
    · show call.index - criteria.minFrame < criteria.maxFrame + 1 - criteria.minFrame
      omega
    · show criteria.minFrame + (call.index - criteria.minFrame) = call.index
      omega
    · have hacc2 : FrameChecker.call d criteria
          (ext.frameAt (FrameGeneratorFactory.call criteria call.seed) call.index) = true := by
        rw [hframe] at hacc
        exact hacc
      rw [if_pos hacc2]
      cases call
      simp only at hframe
      rw [hframe]
      rfl

end pprng
